import Mathlib

/-!
Shallow embedding of the web-test launcher (`go/launcher/launcher.go`).

The launcher's `Run` function sequences: runfile resolution of the metadata
file, metadata parsing, environment resolution through a provider registry,
`Environment.SetUp`, a deferred `Environment.TearDown`, proxy creation and
start, test-executable resolution, temp-dir creation, and finally running the
child test command with an injected environment.  External collaborators
(bazel runfiles, metadata parsing, proxy, environment providers, the child
process) are modelled as an oracle (`World`) that fixes the outcome of each
fallible external step; `Run` itself is translated statement by statement.
The outcome records the returned status, an event trace (factory invocations,
`SetUp` and `TearDown` calls, the child command run) and the child's
environment-variable set.
-/

namespace WTL

/-- Dynamic type of a Go `error` value as far as `Run` inspects it:
`exitError sys` stands for an `*exec.ExitError` whose `Sys()` is a
`syscall.WaitStatus` carrying exit status `sys` (or `none` when `Sys()` is
not a `WaitStatus`); `other` is any other non-nil error value. -/
inductive GoError where
  | exitError (sys : Option Int)
  | other (msg : String)
deriving DecidableEq

/-- How the child test command ends: it ran to completion with an exit code,
or it could not even be started. -/
inductive ChildResult where
  | exited (code : Int)
  | startFailure (msg : String)
deriving DecidableEq

/-- Value of `testCmd.Run()` (line 125) as a function of the child outcome,
following `os/exec` semantics: `Run` returns nil exactly when the child runs
and exits 0; a nonzero exit yields an `*exec.ExitError` wrapping the wait
status; a start failure yields some other non-nil error. -/
def cmdRunResult : ChildResult → Option GoError
  | .exited code => if code = 0 then none else some (.exitError (some code))
  | .startFailure msg => some (.other msg)

/-- Metadata for a test run; `Run` only reads its `Environment` field. -/
structure Metadata where
  environment : String
deriving DecidableEq

/-- An environment instance (`environment.Env`); opaque to the launcher
beyond its `SetUp` and `TearDown` calls, which the `World` oracle answers. -/
structure Env where
  id : Nat
deriving DecidableEq

/-- A started proxy; the launcher only reads its `Address` field. -/
structure Proxy where
  address : String
deriving DecidableEq

/-- An environment provider (`envProvider`): a factory from metadata to an
environment or an error.  The `id` field gives factories an identity so the
trace can record which factory was invoked.  The diagnostics argument is
omitted: `main` always passes the no-op diagnostics sink. -/
structure EnvProvider where
  id : Nat
  run : Metadata → Except String Env

/-- RegisterEnvProviderFunc (lines 55-57): `envProviders[name] = p`, a Go map
assignment, so a later registration for the same name overwrites. -/
def RegisterEnvProviderFunc (reg : String → Option EnvProvider)
    (name : String) (p : EnvProvider) : String → Option EnvProvider :=
  fun n => if n = name then some p else reg n

/-- buildEnv (lines 137-143): look up `m.Environment` in the registry; if
absent return the "unknown environment" error and no environment, else call
the factory and return its result verbatim.  The second component records
the ids of the factories that were invoked. -/
def buildEnv (reg : String → Option EnvProvider) (m : Metadata) :
    Except String Env × List Nat :=
  match reg m.environment with
  | none => (.error ("unknown environment: " ++ m.environment), [])
  | some p => (p.run m, [p.id])

/-- Observable events of a run, in order: a factory invocation inside
`buildEnv`, the `env.SetUp` call, the `testCmd.Run()` call returning (the
child, if started, has terminated), and the deferred `env.TearDown` call
(carrying the error `TearDown` returned, which `Run` only logs). -/
inductive Event where
  | factoryInvoked (id : Nat)
  | setUpCalled
  | childRan
  | tearDownCalled (err : Option String)
deriving DecidableEq

/-- Oracle fixing the outcome of every external step of one run. -/
structure World where
  /-- Result of `bazel.Runfile(*metadataFileFlag)` (line 61). -/
  metadataRunfile : Except String String
  /-- Result of `metadata.FromFile(metadataFile, nil)` (line 67). -/
  metadataFromFile : Except String Metadata
  /-- Result of `env.SetUp(ctx)` (line 79): `none` is success. -/
  setUp : Option String
  /-- Result of the deferred `env.TearDown(ctx)` (line 85): `none` is success. -/
  tearDown : Option String
  /-- Result of `proxy.New(env, m, d)` (line 90). -/
  proxyNew : Except String Proxy
  /-- Result of `p.Start(ctx)` (line 96): `none` is success. -/
  proxyStart : Option String
  /-- Result of `bazel.Runfile(*test)` (line 101). -/
  testRunfile : Except String String
  /-- Result of `bazel.NewTmpDir("test")` (line 108). -/
  newTmpDir : Except String String
  /-- How the child test command ends (line 125). -/
  childResult : ChildResult
  /-- The inherited process environment `os.Environ()` (line 115). -/
  osEnviron : List (String × String)
  /-- Result of `bazel.TestTmpDir()` (line 118). -/
  testTmpDir : String
  /-- Value of the `*test` flag (lines 119 and 101). -/
  testFlag : String

/-- Result of a run: the int `Run` returns, the event trace, and the child
command's environment-variable set (as a lookup function), when one was
built. -/
structure RunOutcome where
  status : Int
  events : List Event
  childEnv : Option (String → Option String)

/-- Modelled from the spec: `cmdhelper.BulkUpdateEnv` is repository code that
is not among the sources.  Per the spec it merges the inherited process
environment with the overlay, the overlay winning on key collision.  The
merged set is modelled by its lookup function. -/
def BulkUpdateEnv (environ overlay : List (String × String)) :
    String → Option String :=
  fun k =>
    match overlay.lookup k with
    | some v => some v
    | none => environ.lookup k

/-- The overlay map of line 115-120: the webdriver endpoint built from the
proxy address, the newly created temp dir, the harness temp dir, and the
test-target flag. -/
def overlayFor (p : Proxy) (tmpDir : String) (w : World) :
    List (String × String) :=
  [("WEB_TEST_WEBDRIVER_SERVER", "http://" ++ p.address ++ "/wd/hub"),
   ("TEST_TMPDIR", tmpDir),
   ("WEB_TEST_TMPDIR", w.testTmpDir),
   ("WEB_TEST_TARGET", w.testFlag)]

/-- Lines 90-134 of `Run`: everything after the deferred teardown is
registered.  Note the bug at line 127: inside the `testCmd.Run()` failure
branch the code type-asserts the outer variable `err` — whose value at that
point is the nil error left by the successful `bazel.NewTmpDir` call at
line 108 — rather than the value `testCmd.Run()` returned, so the
`*exec.ExitError` extraction never fires and the branch falls through to the
generic failure code 1. -/
def runAfterSetUp (w : World) : RunOutcome :=
  match w.proxyNew with
  | .error _ => ⟨127, [], none⟩
  | .ok p =>
    match w.proxyStart with
    | some _ => ⟨127, [], none⟩
    | none =>
      match w.testRunfile with
      | .error _ => ⟨127, [], none⟩
      | .ok _testExe =>
        match w.newTmpDir with
        | .error _ => ⟨-1, [], none⟩
        | .ok tmpDir =>
          let errVar : Option GoError := none
          let childEnv := BulkUpdateEnv w.osEnviron (overlayFor p tmpDir w)
          match cmdRunResult w.childResult with
          | some _status =>
            match errVar with
            | some (GoError.exitError (some ws)) =>
              ⟨ws, [Event.childRan], some childEnv⟩
            | _ => ⟨1, [Event.childRan], some childEnv⟩
          | none => ⟨0, [Event.childRan], some childEnv⟩

/-- Run (lines 60-135), translated statement by statement against the
`World` oracle.  Every early `return` before the `defer` at line 84 yields a
trace without a `tearDownCalled` event; once `SetUp` has succeeded the
deferred teardown is appended to the trace of whatever happens afterwards,
and the status is whatever `runAfterSetUp` produced. -/
def Run (reg : String → Option EnvProvider) (w : World) : RunOutcome :=
  match w.metadataRunfile with
  | .error _ => ⟨127, [], none⟩
  | .ok _metadataFile =>
    match w.metadataFromFile with
    | .error _ => ⟨127, [], none⟩
    | .ok m =>
      match buildEnv reg m with
      | (.error _, invoked) => ⟨127, invoked.map Event.factoryInvoked, none⟩
      | (.ok _env, invoked) =>
        match w.setUp with
        | some _ =>
          ⟨127, invoked.map Event.factoryInvoked ++ [Event.setUpCalled], none⟩
        | none =>
          let inner := runAfterSetUp w
          ⟨inner.status,
           invoked.map Event.factoryInvoked ++ [Event.setUpCalled]
             ++ inner.events ++ [Event.tearDownCalled w.tearDown],
           inner.childEnv⟩

/-- Predicate picking out `tearDownCalled` events. -/
def Event.isTearDown : Event → Bool
  | .tearDownCalled _ => true
  | _ => false

/-- Predicate picking out the `childRan` event. -/
def Event.isChildRan : Event → Bool
  | .childRan => true
  | _ => false

/-- Number of `TearDown` invocations recorded in a trace. -/
def tearDownCount (es : List Event) : Nat :=
  es.countP Event.isTearDown

/-- True when no `childRan` event occurs after any `tearDownCalled` event,
i.e. teardown never happens before the child command has returned. -/
def tearDownAfterChild : List Event → Bool
  | [] => true
  | Event.tearDownCalled _ :: rest =>
      !(rest.any Event.isChildRan) && tearDownAfterChild rest
  | _ :: rest => tearDownAfterChild rest

/-- The run gets as far as calling `env.SetUp`: metadata file resolution and
parsing succeeded and `buildEnv` returned an environment. -/
def envResolvedB (reg : String → Option EnvProvider) (w : World) : Bool :=
  w.metadataRunfile.isOk &&
    (match w.metadataFromFile with
     | .error _ => false
     | .ok m => (buildEnv reg m).1.isOk)

/-- The run gets as far as line 108, `bazel.NewTmpDir`: everything before it
succeeded. -/
def reachesTmpDirStep (reg : String → Option EnvProvider) (w : World) : Bool :=
  envResolvedB reg w && w.setUp.isNone && w.proxyNew.isOk
    && w.proxyStart.isNone && w.testRunfile.isOk

/-- The run gets as far as `testCmd.Run()` at line 125. -/
def reachesChildRun (reg : String → Option EnvProvider) (w : World) : Bool :=
  reachesTmpDirStep reg w && w.newTmpDir.isOk

/-- The run fails before the environment is up, for one of the four reasons
of the claim: metadata file resolution fails, metadata parsing fails, the
environment name is unregistered, or a resolved environment's `SetUp`
errors. -/
def failsBeforeEnvUp (reg : String → Option EnvProvider) (w : World) : Bool :=
  match w.metadataRunfile with
  | .error _ => true
  | .ok _ =>
    match w.metadataFromFile with
    | .error _ => true
    | .ok m =>
      match reg m.environment with
      | none => true
      | some p =>
        match p.run m with
        | .error _ => false
        | .ok _ => w.setUp.isSome

/-- Lookup in the run's child environment, `none` when no child environment
was built. -/
def RunOutcome.lookupChildEnv (o : RunOutcome) (k : String) : Option String :=
  match o.childEnv with
  | none => none
  | some f => f k

/-- Metadata naming the registered environment of the concrete scenarios. -/
def mLocal : Metadata := ⟨"local"⟩

/-- Metadata naming an unregistered environment. -/
def mMissing : Metadata := ⟨"missing"⟩

/-- The environment the concrete provider builds. -/
def envLocal : Env := ⟨0⟩

/-- A provider that always succeeds. -/
def provLocal : EnvProvider := ⟨0, fun _ => Except.ok envLocal⟩

/-- A second provider, distinguishable from `provLocal` by its id. -/
def provAlt : EnvProvider := ⟨1, fun _ => Except.ok envLocal⟩

/-- A registry resolving every name to `provLocal`. -/
def regLocal : String → Option EnvProvider := fun _ => some provLocal

/-- The empty registry. -/
def regEmpty : String → Option EnvProvider := fun _ => none

/-- The proxy of the concrete scenarios. -/
def pLocal : Proxy := ⟨"127.0.0.1:9999"⟩

/-- A world in which every step succeeds and the child exits 0. -/
def wBase : World :=
  { metadataRunfile := Except.ok "mdfile"
    metadataFromFile := Except.ok mLocal
    setUp := none
    tearDown := none
    proxyNew := Except.ok pLocal
    proxyStart := none
    testRunfile := Except.ok "testexe"
    newTmpDir := Except.ok "tmpdir"
    childResult := ChildResult.exited 0
    osEnviron := [("PATH", "bin"), ("TEST_TMPDIR", "inherited")]
    testTmpDir := "webtmp"
    testFlag := "target" }

/-- Like `wBase` but the child exits with code 3. -/
def wChild3 : World := { wBase with childResult := ChildResult.exited 3 }

/-- Like `wBase` but `SetUp` fails. -/
def wSetUpFail : World := { wBase with setUp := some "environment broken" }

/-- Like `wBase` but temp-dir creation fails. -/
def wTmpFail : World := { wBase with newTmpDir := Except.error "disk full" }

section StageLemmas

variable (reg : String → Option EnvProvider) (w : World)

theorem run_mrErr (e : String) (h : w.metadataRunfile = .error e) :
    Run reg w = ⟨127, [], none⟩ := by
  simp only [Run, h]

theorem run_parseErr (f e : String) (h1 : w.metadataRunfile = .ok f)
    (h2 : w.metadataFromFile = .error e) :
    Run reg w = ⟨127, [], none⟩ := by
  simp only [Run, h1, h2]

theorem run_envErr (f : String) (m : Metadata) (e : String) (inv : List Nat)
    (h1 : w.metadataRunfile = .ok f) (h2 : w.metadataFromFile = .ok m)
    (h3 : buildEnv reg m = (.error e, inv)) :
    Run reg w = ⟨127, inv.map Event.factoryInvoked, none⟩ := by
  simp only [Run, h1, h2, h3]

theorem run_setUpErr (f : String) (m : Metadata) (env : Env) (inv : List Nat)
    (e : String) (h1 : w.metadataRunfile = .ok f)
    (h2 : w.metadataFromFile = .ok m) (h3 : buildEnv reg m = (.ok env, inv))
    (h4 : w.setUp = some e) :
    Run reg w = ⟨127, inv.map Event.factoryInvoked ++ [Event.setUpCalled], none⟩ := by
  simp only [Run, h1, h2, h3, h4]

theorem run_afterSetUp (f : String) (m : Metadata) (env : Env) (inv : List Nat)
    (h1 : w.metadataRunfile = .ok f) (h2 : w.metadataFromFile = .ok m)
    (h3 : buildEnv reg m = (.ok env, inv)) (h4 : w.setUp = none) :
    Run reg w = ⟨(runAfterSetUp w).status,
      inv.map Event.factoryInvoked ++ [Event.setUpCalled]
        ++ (runAfterSetUp w).events ++ [Event.tearDownCalled w.tearDown],
      (runAfterSetUp w).childEnv⟩ := by
  simp only [Run, h1, h2, h3, h4]

theorem ras_proxyNewErr (e : String) (h5 : w.proxyNew = .error e) :
    runAfterSetUp w = ⟨127, [], none⟩ := by
  simp only [runAfterSetUp, h5]

theorem ras_proxyStartErr (p : Proxy) (e : String) (h5 : w.proxyNew = .ok p)
    (h6 : w.proxyStart = some e) :
    runAfterSetUp w = ⟨127, [], none⟩ := by
  simp only [runAfterSetUp, h5, h6]

theorem ras_testRunfileErr (p : Proxy) (e : String) (h5 : w.proxyNew = .ok p)
    (h6 : w.proxyStart = none) (h7 : w.testRunfile = .error e) :
    runAfterSetUp w = ⟨127, [], none⟩ := by
  simp only [runAfterSetUp, h5, h6, h7]

theorem ras_tmpDirErr (p : Proxy) (t e : String) (h5 : w.proxyNew = .ok p)
    (h6 : w.proxyStart = none) (h7 : w.testRunfile = .ok t)
    (h8 : w.newTmpDir = .error e) :
    runAfterSetUp w = ⟨-1, [], none⟩ := by
  simp only [runAfterSetUp, h5, h6, h7, h8]

theorem ras_childFail (p : Proxy) (t tmp : String) (g : GoError)
    (h5 : w.proxyNew = .ok p) (h6 : w.proxyStart = none)
    (h7 : w.testRunfile = .ok t) (h8 : w.newTmpDir = .ok tmp)
    (h9 : cmdRunResult w.childResult = some g) :
    runAfterSetUp w = ⟨1, [Event.childRan],
      some (BulkUpdateEnv w.osEnviron (overlayFor p tmp w))⟩ := by
  simp only [runAfterSetUp, h5, h6, h7, h8, h9]

theorem ras_childOk (p : Proxy) (t tmp : String)
    (h5 : w.proxyNew = .ok p) (h6 : w.proxyStart = none)
    (h7 : w.testRunfile = .ok t) (h8 : w.newTmpDir = .ok tmp)
    (h9 : cmdRunResult w.childResult = none) :
    runAfterSetUp w = ⟨0, [Event.childRan],
      some (BulkUpdateEnv w.osEnviron (overlayFor p tmp w))⟩ := by
  simp only [runAfterSetUp, h5, h6, h7, h8, h9]

end StageLemmas

section Helpers

theorem ras_ignores_teardown (w : World) (t : Option String) :
    runAfterSetUp { w with tearDown := t } = runAfterSetUp w := rfl

theorem run_status_ignores_teardown (reg : String → Option EnvProvider)
    (w : World) (t : Option String) :
    (Run reg { w with tearDown := t }).status = (Run reg w).status := by
  cases hmr : w.metadataRunfile with
  | error e => simp only [Run, hmr]
  | ok f =>
    cases hmf : w.metadataFromFile with
    | error e => simp only [Run, hmr, hmf]
    | ok m =>
      rcases hbe : buildEnv reg m with ⟨res, inv⟩
      cases res with
      | error e => simp only [Run, hmr, hmf, hbe]
      | ok env =>
        cases hsu : w.setUp with
        | some e => simp only [Run, hmr, hmf, hbe, hsu]
        | none =>
          simp only [Run, hmr, hmf, hbe, hsu]
          rfl

theorem countP_teardown_map_factory (l : List Nat) :
    List.countP Event.isTearDown (l.map Event.factoryInvoked) = 0 := by
  induction l with
  | nil => rfl
  | cons a l ih =>
    simp only [List.map_cons, List.countP_cons, ih, Event.isTearDown]
    rfl

theorem any_childRan_map_factory (l : List Nat) :
    (l.map Event.factoryInvoked).any Event.isChildRan = false := by
  induction l with
  | nil => rfl
  | cons a l ih =>
    simp only [List.map_cons, List.any_cons, ih, Event.isChildRan]
    rfl

theorem ras_countP_teardown (w : World) :
    List.countP Event.isTearDown (runAfterSetUp w).events = 0 := by
  unfold runAfterSetUp
  repeat' split
  all_goals simp [Event.isTearDown]

theorem tdac_of_no_teardown (es : List Event)
    (h : List.countP Event.isTearDown es = 0) :
    tearDownAfterChild es = true := by
  induction es with
  | nil => rfl
  | cons e rest ih =>
    cases e with
    | tearDownCalled err =>
      rw [List.countP_cons_of_pos _ _ (by simp [Event.isTearDown])] at h
      exact absurd h (Nat.succ_ne_zero _)
    | factoryInvoked id =>
      rw [List.countP_cons_of_neg _ _ (by simp [Event.isTearDown])] at h
      show tearDownAfterChild rest = true
      exact ih h
    | setUpCalled =>
      rw [List.countP_cons_of_neg _ _ (by simp [Event.isTearDown])] at h
      show tearDownAfterChild rest = true
      exact ih h
    | childRan =>
      rw [List.countP_cons_of_neg _ _ (by simp [Event.isTearDown])] at h
      show tearDownAfterChild rest = true
      exact ih h

theorem tdac_append_last (es : List Event) (t : Option String)
    (h : List.countP Event.isTearDown es = 0) :
    tearDownAfterChild (es ++ [Event.tearDownCalled t]) = true := by
  induction es with
  | nil => rfl
  | cons e rest ih =>
    cases e with
    | tearDownCalled err =>
      rw [List.countP_cons_of_pos _ _ (by simp [Event.isTearDown])] at h
      exact absurd h (Nat.succ_ne_zero _)
    | factoryInvoked id =>
      rw [List.countP_cons_of_neg _ _ (by simp [Event.isTearDown])] at h
      show tearDownAfterChild (rest ++ [Event.tearDownCalled t]) = true
      exact ih h
    | setUpCalled =>
      rw [List.countP_cons_of_neg _ _ (by simp [Event.isTearDown])] at h
      show tearDownAfterChild (rest ++ [Event.tearDownCalled t]) = true
      exact ih h
    | childRan =>
      rw [List.countP_cons_of_neg _ _ (by simp [Event.isTearDown])] at h
      show tearDownAfterChild (rest ++ [Event.tearDownCalled t]) = true
      exact ih h

theorem envResolvedB_decomp (reg : String → Option EnvProvider) (w : World)
    (h : envResolvedB reg w = true) :
    ∃ f m env inv, w.metadataRunfile = Except.ok f ∧
      w.metadataFromFile = Except.ok m ∧ buildEnv reg m = (Except.ok env, inv) := by
  unfold envResolvedB at h
  rw [Bool.and_eq_true] at h
  obtain ⟨hmrOk, hrest⟩ := h
  cases hmr : w.metadataRunfile with
  | error e => rw [hmr] at hmrOk; simp [Except.isOk, Except.toBool] at hmrOk
  | ok f =>
    cases hmf : w.metadataFromFile with
    | error e => simp only [hmf] at hrest; exact absurd hrest (by simp)
    | ok m =>
      simp only [hmf] at hrest
      rcases hbe : buildEnv reg m with ⟨res, inv⟩
      rw [hbe] at hrest
      cases res with
      | error e => simp [Except.isOk, Except.toBool] at hrest
      | ok env => exact ⟨f, m, env, inv, rfl, rfl, hbe⟩

end Helpers

section Claims

/-- C5: for every name registered with factory F (and not overwritten later),
resolving metadata whose Environment field equals that name invokes exactly F
and no other factory (the invocation trace is `[F.id]`) and returns F's
result verbatim. -/
theorem buildEnv_invokes_registered_factory_verbatim
    (reg : String → Option EnvProvider) (m : Metadata) (F : EnvProvider)
    (h : reg m.environment = some F) :
    buildEnv reg m = (F.run m, [F.id]) := by
  simp only [buildEnv, h]

/-- Witness for C5 at a concrete registry and metadata. -/
theorem buildEnv_invokes_registered_factory_verbatim_witness :
    buildEnv regLocal mLocal = (provLocal.run mLocal, [provLocal.id]) :=
  buildEnv_invokes_registered_factory_verbatim regLocal mLocal provLocal rfl

/-- C6: resolving metadata whose Environment field is not registered returns
the error naming the unknown environment, no environment, and invokes no
factory (the invocation trace is empty). -/
theorem buildEnv_unknown_environment_error
    (reg : String → Option EnvProvider) (m : Metadata)
    (h : reg m.environment = none) :
    buildEnv reg m
      = (Except.error ("unknown environment: " ++ m.environment), []) := by
  simp only [buildEnv, h]

/-- Witness for C6 at the empty registry. -/
theorem buildEnv_unknown_environment_error_witness :
    buildEnv regEmpty mMissing
      = (Except.error ("unknown environment: " ++ mMissing.environment), []) :=
  buildEnv_unknown_environment_error regEmpty mMissing rfl

/-- C7: registration is last-write-wins: registering F1 then F2 under the
same name makes resolution of that name invoke F2 (and only F2), returning
its result; the earlier entry is overwritten, not kept. -/
theorem register_last_write_wins
    (reg : String → Option EnvProvider) (n : String) (F1 F2 : EnvProvider)
    (m : Metadata) (h : m.environment = n) :
    buildEnv (RegisterEnvProviderFunc (RegisterEnvProviderFunc reg n F1) n F2) m
      = (F2.run m, [F2.id]) := by
  simp [buildEnv, RegisterEnvProviderFunc, h]

/-- Witness for C7: registering `provAlt` then `provLocal` under "local"
resolves to `provLocal`. -/
theorem register_last_write_wins_witness :
    buildEnv (RegisterEnvProviderFunc
        (RegisterEnvProviderFunc regEmpty "local" provAlt) "local" provLocal)
        mLocal
      = (provLocal.run mLocal, [provLocal.id]) :=
  register_last_write_wins _ "local" provAlt provLocal mLocal rfl

/-- C2: whenever the run reaches `testCmd.Run()` and that call returns a
non-nil error, the exit-status extraction at line 127 type-inspects the outer
function's `err` variable — which then holds the nil result of the successful
temp-dir creation — rather than the command's own error, so that branch
always returns the generic failure code 1. -/
theorem run_child_failure_returns_generic_one
    (reg : String → Option EnvProvider) (w : World)
    (hr : reachesChildRun reg w = true)
    (hc : (cmdRunResult w.childResult).isSome = true) :
    (Run reg w).status = 1 := by
  unfold reachesChildRun reachesTmpDirStep at hr
  simp only [Bool.and_eq_true] at hr
  obtain ⟨⟨⟨⟨⟨henv, hsuB⟩, hpnB⟩, hpsB⟩, htrB⟩, htmpB⟩ := hr
  obtain ⟨f, m, env, inv, hmr, hmf, hbe⟩ := envResolvedB_decomp reg w henv
  have hsu : w.setUp = none := Option.isNone_iff_eq_none.mp hsuB
  have hps : w.proxyStart = none := Option.isNone_iff_eq_none.mp hpsB
  cases hpn : w.proxyNew with
  | error e => rw [hpn] at hpnB; simp [Except.isOk, Except.toBool] at hpnB
  | ok p =>
    cases htr : w.testRunfile with
    | error e => rw [htr] at htrB; simp [Except.isOk, Except.toBool] at htrB
    | ok te =>
      cases htd : w.newTmpDir with
      | error e => rw [htd] at htmpB; simp [Except.isOk, Except.toBool] at htmpB
      | ok tmp =>
        cases hcr : cmdRunResult w.childResult with
        | none => rw [hcr] at hc; simp at hc
        | some g =>
          rw [run_afterSetUp reg w f m env inv hmr hmf hbe hsu,
              ras_childFail w p te tmp g hpn hps htr htd hcr]

/-- Witness for C2: all steps succeed, the child exits 3, `Run` returns 1. -/
theorem run_child_failure_returns_generic_one_witness :
    (Run regLocal wChild3).status = 1 :=
  run_child_failure_returns_generic_one regLocal wChild3 rfl rfl

/-- C3: if the run reaches `SetUp` and it succeeds, the deferred `TearDown`
is invoked exactly once before `Run` returns, on every exit path, and the
result of `TearDown` never changes the status `Run` returns. -/
theorem teardown_once_after_successful_setup
    (reg : String → Option EnvProvider) (w : World) (t : Option String)
    (henv : envResolvedB reg w = true) (hsu : w.setUp = none) :
    tearDownCount (Run reg w).events = 1 ∧
      (Run reg { w with tearDown := t }).status = (Run reg w).status := by
  obtain ⟨f, m, env, inv, hmr, hmf, hbe⟩ := envResolvedB_decomp reg w henv
  refine ⟨?_, run_status_ignores_teardown reg w t⟩
  rw [run_afterSetUp reg w f m env inv hmr hmf hbe hsu]
  unfold tearDownCount
  rw [List.countP_append, List.countP_append, List.countP_append,
      countP_teardown_map_factory, ras_countP_teardown]
  simp [List.countP_cons, List.countP_nil, Event.isTearDown]

/-- Witness for C3: a fully successful run tears down once, and an erroring
teardown leaves the status unchanged. -/
theorem teardown_once_after_successful_setup_witness :
    tearDownCount (Run regLocal wBase).events = 1 ∧
      (Run regLocal { wBase with tearDown := some "cleanup failed" }).status
        = (Run regLocal wBase).status :=
  teardown_once_after_successful_setup regLocal wBase (some "cleanup failed")
    rfl rfl

/-- C4: a run failing before the environment is up — metadata file
resolution fails, metadata parsing fails, the environment name is
unregistered, or `SetUp` errors — returns 127 and never invokes
`TearDown`. -/
theorem failure_before_env_up_returns_127_no_teardown
    (reg : String → Option EnvProvider) (w : World)
    (h : failsBeforeEnvUp reg w = true) :
    (Run reg w).status = 127 ∧ tearDownCount (Run reg w).events = 0 := by
  unfold failsBeforeEnvUp at h
  cases hmr : w.metadataRunfile with
  | error e =>
    constructor
    · simp only [Run, hmr]
    · simp [Run, hmr, tearDownCount]
  | ok f =>
    simp only [hmr] at h
    cases hmf : w.metadataFromFile with
    | error e =>
      constructor
      · simp only [Run, hmr, hmf]
      · simp [Run, hmr, hmf, tearDownCount]
    | ok m =>
      simp only [hmf] at h
      cases hq : reg m.environment with
      | none =>
        have hbe : buildEnv reg m
            = (Except.error ("unknown environment: " ++ m.environment), []) := by
          simp only [buildEnv, hq]
        constructor
        · simp only [Run, hmr, hmf, hbe]
        · simp [Run, hmr, hmf, hbe, tearDownCount]
      | some pr =>
        simp only [hq] at h
        cases hrun : pr.run m with
        | error e => rw [hrun] at h; simp at h
        | ok env =>
          simp only [hrun] at h
          cases hsu : w.setUp with
          | none => rw [hsu] at h; simp at h
          | some e =>
            have hbe : buildEnv reg m = (Except.ok env, [pr.id]) := by
              simp only [buildEnv, hq, hrun]
            constructor
            · simp only [Run, hmr, hmf, hbe, hsu]
            · simp [Run, hmr, hmf, hbe, hsu, tearDownCount, List.countP_cons,
                    List.countP_nil, List.countP_append, Event.isTearDown,
                    countP_teardown_map_factory]

/-- Witness for C4: `SetUp` fails, `Run` returns 127, no teardown. -/
theorem failure_before_env_up_returns_127_no_teardown_witness :
    (Run regLocal wSetUpFail).status = 127 ∧
      tearDownCount (Run regLocal wSetUpFail).events = 0 :=
  failure_before_env_up_returns_127_no_teardown regLocal wSetUpFail rfl

/-- C8: a run reaching child execution builds the child environment by
merging the inherited environment with an overlay whose keys are exactly
WEB_TEST_WEBDRIVER_SERVER (the webdriver endpoint built from the proxy
address), TEST_TMPDIR (the new scratch dir), WEB_TEST_TMPDIR (the harness
dir) and WEB_TEST_TARGET (the test flag); overlay values win on collision
and non-overlay keys fall through to the inherited environment. -/
theorem child_env_overlay
    (reg : String → Option EnvProvider) (w : World) (f : String) (m : Metadata)
    (env : Env) (inv : List Nat) (p : Proxy) (te tmp k v k2 : String)
    (hmr : w.metadataRunfile = Except.ok f)
    (hmf : w.metadataFromFile = Except.ok m)
    (hbe : buildEnv reg m = (Except.ok env, inv))
    (hsu : w.setUp = none)
    (hpn : w.proxyNew = Except.ok p)
    (hps : w.proxyStart = none)
    (htr : w.testRunfile = Except.ok te)
    (htd : w.newTmpDir = Except.ok tmp)
    (hk : (overlayFor p tmp w).lookup k = some v)
    (hk2 : (overlayFor p tmp w).lookup k2 = none) :
    (overlayFor p tmp w).map Prod.fst
        = ["WEB_TEST_WEBDRIVER_SERVER", "TEST_TMPDIR", "WEB_TEST_TMPDIR",
           "WEB_TEST_TARGET"] ∧
      (Run reg w).childEnv.isSome = true ∧
      (Run reg w).lookupChildEnv "WEB_TEST_WEBDRIVER_SERVER"
          = some ("http://" ++ p.address ++ "/wd/hub") ∧
      (Run reg w).lookupChildEnv "TEST_TMPDIR" = some tmp ∧
      (Run reg w).lookupChildEnv "WEB_TEST_TMPDIR" = some w.testTmpDir ∧
      (Run reg w).lookupChildEnv "WEB_TEST_TARGET" = some w.testFlag ∧
      (Run reg w).lookupChildEnv k = some v ∧
      (Run reg w).lookupChildEnv k2 = w.osEnviron.lookup k2 := by
  have hce : (Run reg w).childEnv
      = some (BulkUpdateEnv w.osEnviron (overlayFor p tmp w)) := by
    cases hcr : cmdRunResult w.childResult with
    | none =>
      rw [run_afterSetUp reg w f m env inv hmr hmf hbe hsu,
          ras_childOk w p te tmp hpn hps htr htd hcr]
    | some g =>
      rw [run_afterSetUp reg w f m env inv hmr hmf hbe hsu,
          ras_childFail w p te tmp g hpn hps htr htd hcr]
  refine ⟨rfl, ?_, ?_, ?_, ?_, ?_, ?_, ?_⟩
  · rw [hce]; rfl
  · simp only [RunOutcome.lookupChildEnv, hce, BulkUpdateEnv, overlayFor]
    rfl
  · simp only [RunOutcome.lookupChildEnv, hce, BulkUpdateEnv, overlayFor]
    rfl
  · simp only [RunOutcome.lookupChildEnv, hce, BulkUpdateEnv, overlayFor]
    rfl
  · simp only [RunOutcome.lookupChildEnv, hce, BulkUpdateEnv, overlayFor]
    rfl
  · simp only [RunOutcome.lookupChildEnv, hce, BulkUpdateEnv, hk]
  · simp only [RunOutcome.lookupChildEnv, hce, BulkUpdateEnv, hk2]

/-- Witness for C8 at a concrete run: the overlay key WEB_TEST_TARGET wins
and the non-overlay key PATH falls through to the inherited environment. -/
theorem child_env_overlay_witness :
    (overlayFor pLocal "tmpdir" wBase).map Prod.fst
        = ["WEB_TEST_WEBDRIVER_SERVER", "TEST_TMPDIR", "WEB_TEST_TMPDIR",
           "WEB_TEST_TARGET"] ∧
      (Run regLocal wBase).childEnv.isSome = true ∧
      (Run regLocal wBase).lookupChildEnv "WEB_TEST_WEBDRIVER_SERVER"
          = some ("http://" ++ pLocal.address ++ "/wd/hub") ∧
      (Run regLocal wBase).lookupChildEnv "TEST_TMPDIR" = some "tmpdir" ∧
      (Run regLocal wBase).lookupChildEnv "WEB_TEST_TMPDIR"
          = some wBase.testTmpDir ∧
      (Run regLocal wBase).lookupChildEnv "WEB_TEST_TARGET"
          = some wBase.testFlag ∧
      (Run regLocal wBase).lookupChildEnv "WEB_TEST_TARGET" = some "target" ∧
      (Run regLocal wBase).lookupChildEnv "PATH"
          = wBase.osEnviron.lookup "PATH" :=
  child_env_overlay regLocal wBase "mdfile" mLocal envLocal [provLocal.id]
    pLocal "testexe" "tmpdir" "WEB_TEST_TARGET" "target" "PATH"
    rfl rfl rfl rfl rfl rfl rfl rfl (by decide) (by decide)

/-- C9: teardown never begins before the child command has returned: in
every run's trace, no `childRan` event occurs after a `tearDownCalled`
event. -/
theorem teardown_never_before_child_exit (reg : String → Option EnvProvider)
    (w : World) :
    tearDownAfterChild (Run reg w).events = true := by
  cases hmr : w.metadataRunfile with
  | error e => simp only [Run, hmr]; rfl
  | ok f =>
    cases hmf : w.metadataFromFile with
    | error e => simp only [Run, hmr, hmf]; rfl
    | ok m =>
      rcases hbe : buildEnv reg m with ⟨res, inv⟩
      cases res with
      | error e =>
        simp only [Run, hmr, hmf, hbe]
        exact tdac_of_no_teardown _ (countP_teardown_map_factory inv)
      | ok env =>
        cases hsu : w.setUp with
        | some e =>
          simp only [Run, hmr, hmf, hbe, hsu]
          apply tdac_of_no_teardown
          rw [List.countP_append, countP_teardown_map_factory]
          rfl
        | none =>
          simp only [Run, hmr, hmf, hbe, hsu]
          have h0 : List.countP Event.isTearDown
              (inv.map Event.factoryInvoked ++ [Event.setUpCalled]
                ++ (runAfterSetUp w).events) = 0 := by
            rw [List.countP_append, List.countP_append,
                countP_teardown_map_factory, ras_countP_teardown]
            rfl
          exact tdac_append_last _ w.tearDown h0

/-- C10: if temp-dir creation fails after the proxy has started, `Run`
returns -1, the child is never started, and the deferred teardown still
executes once. -/
theorem tmpdir_failure_returns_minus_one
    (reg : String → Option EnvProvider) (w : World) (e : String)
    (h : reachesTmpDirStep reg w = true)
    (he : w.newTmpDir = Except.error e) :
    (Run reg w).status = -1 ∧
      (Run reg w).events.any Event.isChildRan = false ∧
      tearDownCount (Run reg w).events = 1 := by
  unfold reachesTmpDirStep at h
  simp only [Bool.and_eq_true] at h
  obtain ⟨⟨⟨⟨henv, hsuB⟩, hpnB⟩, hpsB⟩, htrB⟩ := h
  obtain ⟨f, m, env, inv, hmr, hmf, hbe⟩ := envResolvedB_decomp reg w henv
  have hsu : w.setUp = none := Option.isNone_iff_eq_none.mp hsuB
  have hps : w.proxyStart = none := Option.isNone_iff_eq_none.mp hpsB
  cases hpn : w.proxyNew with
  | error e2 => rw [hpn] at hpnB; simp [Except.isOk, Except.toBool] at hpnB
  | ok p =>
    cases htr : w.testRunfile with
    | error e2 => rw [htr] at htrB; simp [Except.isOk, Except.toBool] at htrB
    | ok te =>
      rw [run_afterSetUp reg w f m env inv hmr hmf hbe hsu,
          ras_tmpDirErr w p te e hpn hps htr he]
      refine ⟨rfl, ?_, ?_⟩
      · simp [List.any_append, any_childRan_map_factory, Event.isChildRan]
      · unfold tearDownCount
        simp [List.countP_append, List.countP_cons, List.countP_nil,
              Event.isTearDown, countP_teardown_map_factory]

/-- Witness for C10: temp-dir creation fails in an otherwise successful
run. -/
theorem tmpdir_failure_returns_minus_one_witness :
    (Run regLocal wTmpFail).status = -1 ∧
      (Run regLocal wTmpFail).events.any Event.isChildRan = false ∧
      tearDownCount (Run regLocal wTmpFail).events = 1 :=
  tmpdir_failure_returns_minus_one regLocal wTmpFail "disk full" rfl rfl

/-- C1 (code bug): the claim says a child exiting with code K makes `Run`
return K, but with every step succeeding and the child exiting 3, `Run`
returns the generic failure code 1: line 127 inspects the outer `err`
variable (nil after the successful temp-dir creation) instead of the error
`testCmd.Run()` returned.  A child exiting 0 does yield 0. -/
theorem child_exit_code_not_propagated :
    wChild3.childResult = ChildResult.exited 3 ∧
      (Run regLocal wChild3).status = 1 ∧
      (Run regLocal wBase).status = 0 := by
  refine ⟨rfl, ?_, ?_⟩ <;> rfl

end Claims

end WTL
